import Mathlib

/-!
Shallow embedding of the slide preview pipeline (pptx_build/preview.mjs):
a screenshot capturer, a grid compositor and a pipeline driver.
Effectful library calls (filesystem, browser automation, image decoding)
are modelled by explicit environments that choose the outcome of each
call; result records keep a trace of resource acquisition and release.
-/

namespace Preview

/-- Fixed capture viewport width in pixels (source constant WIDTH). -/
def WIDTH : Nat := 960

/-- Fixed capture viewport height in pixels (source constant HEIGHT). -/
def HEIGHT : Nat := 540

/-- Fixed column count of the grid (source constant COLS). -/
def COLS : Nat := 4

/-- Gap in pixels between cells and around the border (source constant GAP). -/
def GAP : Nat := 18

/-- Height in pixels of the label band drawn under each capture (source constant LABEL_H). -/
def LABEL_H : Nat := 30

/-- Name of the directory that receives the per-slide captures (source constant outDir). -/
def outDirName : String := "preview"

/-- Path of the composite output file (source constant outGrid). -/
def outGrid : String := "preview-grid.png"

/-- Model of the JavaScript call s.padStart(w, c) with a one-character pad
string: copies of the pad character are prepended until the target length
is reached, and the string is returned unchanged when it is already long
enough. -/
def padStart (s : String) (w : Nat) (c : Char) : String :=
  String.mk (List.replicate (w - s.length) c) ++ s

/-- Numeral of the capture file of the slide with 1-based index n:
String(n).padStart(2, "0") from the source. -/
def slideNumeral (n : Nat) : String :=
  padStart (toString n) 2 '0'

/-- File name of the capture of the slide with 1-based index n. -/
def captureName (n : Nat) : String :=
  "slide-" ++ slideNumeral n ++ ".png"

/-- Output path of the capture taken in loop iteration i (0-based):
path.join(outDir, slide-NN.png) with NN the zero padded numeral of i+1. -/
def captureFile (i : Nat) : String :=
  outDirName ++ "/" ++ captureName (i + 1)

/-- Environment of one capturer run: the outcome the surrounding system
gives to each effectful call of screenshotSlides. The field fsFault is
the injected failure, if any, of fs.mkdir(outDir) with the recursive
flag; since that call succeeds whether or not the directory already
exists, the preexistence of the directory is tracked separately in
dirExists and has no bearing on any outcome. -/
structure CaptureEnv where
  fsFault : Option String
  dirExists : Bool
  launch : Except String Unit
  newPage : Except String Unit
  goto : Nat → Except String Unit
  screenshot : Nat → Except String Unit

/-- Result of fs.mkdir(outDir, recursive) under environment env. -/
def ensureDir (env : CaptureEnv) : Except String Unit :=
  match env.fsFault with
  | some e => .error e
  | none => .ok ()

/-- Observable outcome of one screenshotSlides run: the returned output
path list or the propagated error, the number of browser launches, the
number of browser closes, and the performed captures as pairs of source
slide path and output file path, in the order they were taken. -/
structure CaptureResult where
  result : Except String (List String)
  launches : Nat
  closes : Nat
  captured : List (String × String)
deriving Repr

/-- Embedding of the capture loop of screenshotSlides, started at 0-based
index i: for each slide the page navigates to the slide file, waits a
fixed settle delay, and captures the viewport to the output file of that
index. The value lists, for each slide in input order, the pair of its
source path and its output path; the first navigation or capture fault
aborts the loop with that error. -/
def captureLoop (env : CaptureEnv) : List String → Nat → Except String (List (String × String))
  | [], _ => .ok []
  | s :: rest, i =>
    match env.goto i with
    | .error e => .error e
    | .ok _ =>
      match env.screenshot i with
      | .error e => .error e
      | .ok _ =>
        match captureLoop env rest (i + 1) with
        | .error e => .error e
        | .ok tail => .ok ((s, captureFile i) :: tail)

/-- Embedding of screenshotSlides: ensure the output directory, launch the
browser, then, inside a try block whose finally clause closes the browser
on every path after a successful launch, open one page and run the
capture loop; the function returns the output paths in input order. -/
def screenshotSlides (env : CaptureEnv) (slides : List String) : CaptureResult :=
  match ensureDir env with
  | .error e => ⟨.error e, 0, 0, []⟩
  | .ok _ =>
    match env.launch with
    | .error e => ⟨.error e, 0, 0, []⟩
    | .ok _ =>
      match env.newPage with
      | .error e => ⟨.error e, 1, 1, []⟩
      | .ok _ =>
        match captureLoop env slides 0 with
        | .error e => ⟨.error e, 1, 1, []⟩
        | .ok pairs => ⟨.ok (pairs.map Prod.snd), 1, 1, pairs⟩

/-- Raster or SVG bytes held in memory, modelled by their content. -/
abbrev Buffer := String

/-- One composite overlay: an input buffer placed at the offsets left and
top on the canvas (one entry pushed onto the composites array). -/
structure Overlay where
  input : Buffer
  left : Nat
  top : Nat
deriving Repr

/-- Row count of the grid: Math.ceil(n / COLS) on the slide count n. -/
def gridRows (n : Nat) : Nat :=
  (⌈(n : ℚ) / (COLS : ℚ)⌉).toNat

/-- Canvas width: COLS * WIDTH + (COLS + 1) * GAP. -/
def gridW : Nat := COLS * WIDTH + (COLS + 1) * GAP

/-- Canvas height for n slides: rows * (HEIGHT + LABEL_H) + (rows + 1) * GAP. -/
def gridH (n : Nat) : Nat :=
  gridRows n * (HEIGHT + LABEL_H) + (gridRows n + 1) * GAP

/-- Horizontal origin of the cell of the capture with 0-based index i:
GAP + col * (WIDTH + GAP) with col = i % COLS. -/
def xPos (i : Nat) : Nat := GAP + (i % COLS) * (WIDTH + GAP)

/-- Vertical origin of the cell of the capture with 0-based index i:
GAP + row * (HEIGHT + LABEL_H + GAP) with row = floor(i / COLS). -/
def yPos (i : Nat) : Nat := GAP + (i / COLS) * (HEIGHT + LABEL_H + GAP)

/-- Label band drawn under the capture of 0-based index idx: an SVG of
width WIDTH and height LABEL_H whose text names the 1-based slide
ordinal. The whitespace of the source template literal is not tracked. -/
def labelSvg (idx : Nat) : Buffer :=
  "<svg width=" ++ toString WIDTH ++ " height=" ++ toString LABEL_H ++
    " xmlns=http://www.w3.org/2000/svg>" ++
    "<rect x=0 y=0 width=" ++ toString WIDTH ++ " height=" ++ toString LABEL_H ++
    " fill=#23283A/>" ++
    "<text x=12 y=20 font-family=Arial font-size=16 fill=#E7ECFF>Slide " ++
    toString (idx + 1) ++ "</text></svg>"

/-- Environment of one makeGrid run: how each input path decodes, that is
the outcome of sharp(path).png().toBuffer(), together with filesystem
metadata, per-file timestamps and the directory listing order, which the
layout is claimed never to consult. -/
structure GridEnv where
  decode : String → Except String Buffer
  timestamps : String → Nat
  dirList : List String

/-- Embedding of the composite assembly loop of makeGrid, started at
0-based index k: each input image is decoded and pushed at its computed
cell origin, followed by its label band at the same horizontal origin
one capture height lower; the first decode fault aborts the whole loop
with that error before any later image is decoded. -/
def buildComposites (d : String → Except String Buffer) :
    List String → Nat → Except String (List Overlay)
  | [], _ => .ok []
  | img :: rest, k =>
    match d img with
    | .error e => .error e
    | .ok buf =>
      match buildComposites d rest (k + 1) with
      | .error e => .error e
      | .ok tail =>
        .ok (Overlay.mk buf (xPos k) (yPos k) ::
          Overlay.mk (labelSvg k) (xPos k) (yPos k + HEIGHT) :: tail)

/-- Observable outcome of one makeGrid run: the computed canvas
dimensions, the assembled overlay list or the propagated error, and
whether the composite file was written. The final toFile call runs only
after every overlay has been assembled in memory, so the file is written
exactly when the whole assembly succeeded. -/
structure GridResult where
  canvasW : Nat
  canvasH : Nat
  result : Except String (List Overlay)
  written : Bool
deriving Repr

/-- Embedding of makeGrid: compute the grid geometry from the image
count, assemble all overlays in memory, and only then write the
composite file. -/
def makeGridRun (env : GridEnv) (images : List String) : GridResult :=
  match buildComposites env.decode images 0 with
  | .error e => ⟨gridW, gridH images.length, .error e, false⟩
  | .ok cs => ⟨gridW, gridH images.length, .ok cs, true⟩

/-- Observable outcome of one whole process run: the exit code, the lines
printed to stderr and stdout, and whether the composite was written. -/
structure ProcResult where
  exitCode : Nat
  stderrLines : List String
  stdoutLines : List String
  gridWritten : Bool
deriving Repr

/-- Embedding of main plus the top-level catch handler: run the capturer
to completion, then the compositor over the capturer outputs; on success
makeGrid logs the composite path and the process exits with code 0,
while any stage error is printed to stderr and the exit code set to 1. -/
def runProcess (cenv : CaptureEnv) (genv : GridEnv) (slides : List String) : ProcResult :=
  match (screenshotSlides cenv slides).result with
  | .error e => ⟨1, [e], [], false⟩
  | .ok outs =>
    match (makeGridRun genv outs).result with
    | .error e => ⟨1, [e], [], false⟩
    | .ok _ => ⟨0, [], [outGrid], (makeGridRun genv outs).written⟩

/-- Capture environment in which every external call succeeds. -/
def allOkCaptureEnv : CaptureEnv :=
  ⟨none, false, .ok (), .ok (), fun _ => .ok (), fun _ => .ok ()⟩

/-- Grid environment in which every image decodes to a fixed buffer. -/
def allOkGridEnv : GridEnv :=
  ⟨fun _ => .ok "img", fun _ => 0, []⟩

/-- Capture environment in which every screenshot call fails. -/
def failShotEnv : CaptureEnv :=
  ⟨none, false, .ok (), .ok (), fun _ => .ok (), fun _ => .error "shot failed"⟩

/-- Capture environment in which the directory creation fails. -/
def failMkdirEnv : CaptureEnv :=
  ⟨some "mkdir failed", false, .ok (), .ok (), fun _ => .ok (), fun _ => .ok ()⟩

/-- Grid environment in which every image decode fails. -/
def failDecodeEnv : GridEnv :=
  ⟨fun _ => .error "decode failed", fun _ => 0, []⟩

/- Helper lemmas -/

/-- Row count as a natural ceiling: the source Math.ceil on the exact
rational quotient agrees with the natural ceiling of that quotient. -/
theorem gridRows_eq_natCeil (n : Nat) : gridRows n = ⌈(n : ℚ) / (COLS : ℚ)⌉₊ :=
  Int.ceil_toNat _

/-- Row count as natural division, the form all concrete evaluation uses. -/
theorem gridRows_eq_div (n : Nat) : gridRows n = (n + 3) / 4 := by
  have h4 : ((COLS : ℚ)) = 4 := by norm_num [COLS]
  rw [gridRows_eq_natCeil, h4]
  rcases Nat.eq_zero_or_pos n with h | h
  · subst h
    norm_num
  · have hm : (n + 3) / 4 ≠ 0 := by omega
    rw [Nat.ceil_eq_iff hm]
    constructor
    · rw [lt_div_iff₀ (by norm_num : (0 : ℚ) < 4)]
      have hlt : ((n + 3) / 4 - 1) * 4 < n := by omega
      exact_mod_cast hlt
    · rw [div_le_iff₀ (by norm_num : (0 : ℚ) < 4)]
      have hle : n ≤ (n + 3) / 4 * 4 := by omega
      exact_mod_cast hle

/-- Canvas fields of a makeGridRun outcome are the computed geometry,
whatever the decode outcomes are. -/
theorem makeGridRun_canvas (env : GridEnv) (images : List String) :
    (makeGridRun env images).canvasW = gridW ∧
    (makeGridRun env images).canvasH = gridH images.length := by
  unfold makeGridRun
  cases buildComposites env.decode images 0 with
  | error e => exact ⟨rfl, rfl⟩
  | ok cs => exact ⟨rfl, rfl⟩

/-- Structure of a successful composite assembly: the overlay list has two
entries per image, and the entries of the image with loop index k + i are
its decoded buffer at the computed cell origin followed by its label band
at the same horizontal origin one capture height lower. -/
theorem buildComposites_ok_elim (d : String → Except String Buffer) (imgs : List String) :
    ∀ (k : Nat) (cs : List Overlay), buildComposites d imgs k = .ok cs →
      cs.length = 2 * imgs.length ∧
      ∀ i, i < imgs.length →
        ∃ b, d (imgs.getD i "") = .ok b ∧
          cs.get? (2 * i) = some (Overlay.mk b (xPos (k + i)) (yPos (k + i))) ∧
          cs.get? (2 * i + 1) =
            some (Overlay.mk (labelSvg (k + i)) (xPos (k + i)) (yPos (k + i) + HEIGHT)) := by
  induction imgs with
  | nil =>
    intro k cs h
    simp only [buildComposites] at h
    cases h
    exact ⟨rfl, fun i hi => absurd hi (by simp)⟩
  | cons img rest ih =>
    intro k cs h
    simp only [buildComposites] at h
    cases hdec : d img with
    | error e => rw [hdec] at h; cases h
    | ok buf =>
      rw [hdec] at h
      cases hrec : buildComposites d rest (k + 1) with
      | error e => rw [hrec] at h; cases h
      | ok tail =>
        rw [hrec] at h
        cases h
        obtain ⟨hlen, hget⟩ := ih (k + 1) tail hrec
        refine ⟨by simp [hlen]; omega, ?_⟩
        intro i hi
        cases i with
        | zero =>
          exact ⟨buf, by simpa using hdec, by simp, by simp⟩
        | succ i' =>
          obtain ⟨b, hb, h1, h2⟩ := hget i' (by simpa using hi)
          refine ⟨b, by simpa using hb, ?_, ?_⟩
          · have : 2 * (i' + 1) = (2 * i') + 1 + 1 := by omega
            rw [this, List.get?_cons_succ, List.get?_cons_succ]
            have hk : k + (i' + 1) = k + 1 + i' := by omega
            rw [hk]
            exact h1
          · have : 2 * (i' + 1) + 1 = (2 * i' + 1) + 1 + 1 := by omega
            rw [this, List.get?_cons_succ, List.get?_cons_succ]
            have hk : k + (i' + 1) = k + 1 + i' := by omega
            rw [hk]
            exact h2

/-- When every image decodes, the composite assembly succeeds. -/
theorem buildComposites_total (d : String → Except String Buffer)
    (hok : ∀ p, (d p).isOk = true) (imgs : List String) :
    ∀ k, ∃ cs, buildComposites d imgs k = .ok cs := by
  induction imgs with
  | nil => exact fun k => ⟨[], rfl⟩
  | cons img rest ih =>
    intro k
    obtain ⟨tail, htail⟩ := ih (k + 1)
    cases hdec : d img with
    | error e =>
      have := hok img
      rw [hdec] at this
      simp [Except.isOk, Except.toBool] at this
    | ok buf =>
      exact ⟨Overlay.mk buf (xPos k) (yPos k) ::
          Overlay.mk (labelSvg k) (xPos k) (yPos k + HEIGHT) :: tail,
        by simp only [buildComposites, hdec, htail]⟩

/-- C1: for every slide count N with at least one slide and the fixed
column count COLS, the layout of makeGrid satisfies the spec formulas
exactly: the row count is the ceiling of N / COLS, the canvas is
COLS * WIDTH + (COLS + 1) * GAP wide and rows * (HEIGHT + LABEL_H) +
(rows + 1) * GAP high, and the capture of 0-based index i is placed at
x = GAP + (i % COLS) * (WIDTH + GAP), y = GAP + (i / COLS) *
(HEIGHT + LABEL_H + GAP), with its label band at the same x at vertical
offset y + HEIGHT. -/
theorem makeGrid_layout (genv : GridEnv) (images : List String)
    (hok : ∀ p, (genv.decode p).isOk = true) (hN : 1 ≤ images.length) :
    gridRows images.length = ⌈(images.length : ℚ) / (COLS : ℚ)⌉₊ ∧
    (makeGridRun genv images).canvasW = COLS * WIDTH + (COLS + 1) * GAP ∧
    (makeGridRun genv images).canvasH =
      gridRows images.length * (HEIGHT + LABEL_H) + (gridRows images.length + 1) * GAP ∧
    ∃ cs, (makeGridRun genv images).result = .ok cs ∧
      ∀ i, i < images.length →
        ∃ b, genv.decode (images.getD i "") = .ok b ∧
          cs.get? (2 * i) = some (Overlay.mk b
            (GAP + (i % COLS) * (WIDTH + GAP))
            (GAP + (i / COLS) * (HEIGHT + LABEL_H + GAP))) ∧
          cs.get? (2 * i + 1) = some (Overlay.mk (labelSvg i)
            (GAP + (i % COLS) * (WIDTH + GAP))
            (GAP + (i / COLS) * (HEIGHT + LABEL_H + GAP) + HEIGHT)) := by
  obtain ⟨cs, hcs⟩ := buildComposites_total genv.decode hok images 0
  obtain ⟨hW, hH⟩ := makeGridRun_canvas genv images
  refine ⟨gridRows_eq_natCeil images.length, by rw [hW]; rfl, by rw [hH]; rfl, cs, ?_, ?_⟩
  · simp only [makeGridRun, hcs]
  · intro i hi
    obtain ⟨-, hget⟩ := buildComposites_ok_elim genv.decode images 0 cs hcs
    obtain ⟨b, hb, h1, h2⟩ := hget i hi
    exact ⟨b, hb, by simpa [xPos, yPos] using h1, by simpa [xPos, yPos] using h2⟩

/-- C1 witness: the layout facts instantiated on a single concrete slide. -/
theorem makeGrid_layout_witness :
    (∀ p, (allOkGridEnv.decode p).isOk = true) ∧
    1 ≤ (["a.png"] : List String).length ∧
    (makeGridRun allOkGridEnv ["a.png"]).canvasW = COLS * WIDTH + (COLS + 1) * GAP ∧
    gridRows 1 = ⌈((1 : Nat) : ℚ) / (COLS : ℚ)⌉₊ :=
  ⟨fun _ => rfl, by decide,
    (makeGrid_layout allOkGridEnv ["a.png"] (fun _ => rfl) (by decide)).2.1,
    by simpa using (makeGrid_layout allOkGridEnv ["a.png"] (fun _ => rfl) (by decide)).1⟩

/-- C2: cells of distinct capture indices are pairwise disjoint rectangles
of size WIDTH by HEIGHT + LABEL_H, and every cell together with its
surrounding gap lies inside the computed canvas. -/
theorem grid_cells_disjoint_and_contained (N i j : Nat)
    (hi : i < N) (hj : j < N) (hij : i ≠ j) :
    (xPos i + WIDTH ≤ xPos j ∨ xPos j + WIDTH ≤ xPos i ∨
      yPos i + (HEIGHT + LABEL_H) ≤ yPos j ∨ yPos j + (HEIGHT + LABEL_H) ≤ yPos i) ∧
    GAP ≤ xPos i ∧ GAP ≤ yPos i ∧
    xPos i + WIDTH + GAP ≤ gridW ∧
    yPos i + (HEIGHT + LABEL_H) + GAP ≤ gridH N := by
  simp only [xPos, yPos, gridW, gridH, gridRows_eq_div, WIDTH, HEIGHT, COLS, GAP, LABEL_H]
  omega

/-- C2 witness: disjointness and containment at two concrete indices. -/
theorem grid_cells_witness :
    0 < (5 : Nat) ∧ 1 < (5 : Nat) ∧ (0 : Nat) ≠ 1 ∧
    ((xPos 0 + WIDTH ≤ xPos 1 ∨ xPos 1 + WIDTH ≤ xPos 0 ∨
      yPos 0 + (HEIGHT + LABEL_H) ≤ yPos 1 ∨ yPos 1 + (HEIGHT + LABEL_H) ≤ yPos 0) ∧
      GAP ≤ xPos 0 ∧ GAP ≤ yPos 0 ∧
      xPos 0 + WIDTH + GAP ≤ gridW ∧
      yPos 0 + (HEIGHT + LABEL_H) + GAP ≤ gridH 5) :=
  ⟨by decide, by decide, by decide,
    grid_cells_disjoint_and_contained 5 0 1 (by decide) (by decide) (by decide)⟩

/-- Structure of a successful capture loop started at index k: one pair
per slide, and the pair of the slide at list position i carries that very
slide path together with the output file of loop index k + i. -/
theorem captureLoop_ok_elim (env : CaptureEnv) (slides : List String) :
    ∀ (k : Nat) (pairs : List (String × String)), captureLoop env slides k = .ok pairs →
      pairs.length = slides.length ∧
      ∀ i, i < slides.length →
        pairs.get? i = some (slides.getD i "", captureFile (k + i)) := by
  induction slides with
  | nil =>
    intro k pairs h
    simp only [captureLoop] at h
    cases h
    exact ⟨rfl, fun i hi => absurd hi (by simp)⟩
  | cons s rest ih =>
    intro k pairs h
    simp only [captureLoop] at h
    cases hg : env.goto k with
    | error e => rw [hg] at h; cases h
    | ok u =>
      rw [hg] at h
      cases hs : env.screenshot k with
      | error e => rw [hs] at h; cases h
      | ok v =>
        rw [hs] at h
        cases hr : captureLoop env rest (k + 1) with
        | error e => rw [hr] at h; cases h
        | ok tail =>
          rw [hr] at h
          cases h
          obtain ⟨hlen, hget⟩ := ih (k + 1) tail hr
          refine ⟨by simp [hlen], ?_⟩
          intro i hi
          cases i with
          | zero => simp
          | succ i' =>
            have htail := hget i' (by simpa using hi)
            simp only [List.get?_cons_succ, List.getD_cons_succ]
            have hk : k + (i' + 1) = k + 1 + i' := by omega
            rw [hk]
            exact htail

/-- When every navigation and capture call succeeds the loop succeeds. -/
theorem captureLoop_total (env : CaptureEnv)
    (hg : ∀ i, env.goto i = .ok ()) (hs : ∀ i, env.screenshot i = .ok ())
    (slides : List String) :
    ∀ k, ∃ pairs, captureLoop env slides k = .ok pairs := by
  induction slides with
  | nil => exact fun _ => ⟨[], rfl⟩
  | cons s rest ih =>
    intro k
    obtain ⟨tail, htail⟩ := ih (k + 1)
    exact ⟨(s, captureFile k) :: tail,
      by simp only [captureLoop, hg k, hs k, htail]⟩

/-- C3: with every external call succeeding, screenshotSlides returns one
output path per input, in input order; the i-th output (0-based i) is
outDir/slide-NN.png with NN the zero padded numeral of i + 1, and the
capture of position i was taken from the i-th entry of the input list,
never from any other enumeration order. -/
theorem screenshotSlides_outputs (env : CaptureEnv) (slides : List String)
    (h0 : env.fsFault = none) (h1 : env.launch = .ok ()) (h2 : env.newPage = .ok ())
    (hg : ∀ i, env.goto i = .ok ()) (hs : ∀ i, env.screenshot i = .ok ()) :
    ∃ outs, (screenshotSlides env slides).result = .ok outs ∧
      outs.length = slides.length ∧
      (∀ i, i < slides.length →
        outs.get? i =
          some (outDirName ++ "/" ++ ("slide-" ++ padStart (toString (i + 1)) 2 '0' ++ ".png"))) ∧
      (screenshotSlides env slides).captured.length = slides.length ∧
      ∀ i, i < slides.length →
        (screenshotSlides env slides).captured.get? i =
          some (slides.getD i "", captureFile i) := by
  obtain ⟨pairs, hpairs⟩ := captureLoop_total env hg hs slides 0
  obtain ⟨hlen, hget⟩ := captureLoop_ok_elim env slides 0 pairs hpairs
  have hrun : screenshotSlides env slides = ⟨.ok (pairs.map Prod.snd), 1, 1, pairs⟩ := by
    simp only [screenshotSlides, ensureDir, h0, h1, h2, hpairs]
  refine ⟨pairs.map Prod.snd, by rw [hrun], by simp [hlen], ?_, by rw [hrun]; exact hlen, ?_⟩
  · intro i hi
    rw [List.get?_map]
    rw [hget i hi]
    show some (captureFile (0 + i)) = _
    rw [Nat.zero_add]
    rfl
  · intro i hi
    rw [hrun]
    have h := hget i hi
    rw [Nat.zero_add] at h
    exact h

/-- C3 witness: the output facts instantiated on two concrete slides. -/
theorem screenshotSlides_outputs_witness :
    allOkCaptureEnv.fsFault = none ∧
    ∃ outs, (screenshotSlides allOkCaptureEnv ["a.html", "b.html"]).result = .ok outs ∧
      outs.length = (["a.html", "b.html"] : List String).length ∧
      (∀ i, i < (["a.html", "b.html"] : List String).length →
        outs.get? i =
          some (outDirName ++ "/" ++ ("slide-" ++ padStart (toString (i + 1)) 2 '0' ++ ".png"))) ∧
      (screenshotSlides allOkCaptureEnv ["a.html", "b.html"]).captured.length =
        (["a.html", "b.html"] : List String).length ∧
      ∀ i, i < (["a.html", "b.html"] : List String).length →
        (screenshotSlides allOkCaptureEnv ["a.html", "b.html"]).captured.get? i =
          some ((["a.html", "b.html"] : List String).getD i "", captureFile i) :=
  ⟨rfl, screenshotSlides_outputs allOkCaptureEnv ["a.html", "b.html"]
    rfl rfl rfl (fun _ => rfl) (fun _ => rfl)⟩

/-- C4: after a successful directory creation and browser launch, every
exit path of screenshotSlides, normal completion, page creation failure
or any per-slide navigation or capture failure, records exactly one
browser launch and exactly one browser close. -/
theorem browser_closed_exactly_once (env : CaptureEnv) (slides : List String)
    (h0 : env.fsFault = none) (h1 : env.launch = .ok ()) :
    (screenshotSlides env slides).launches = 1 ∧
    (screenshotSlides env slides).closes = 1 := by
  simp only [screenshotSlides, ensureDir, h0, h1]
  cases env.newPage with
  | error e => exact ⟨rfl, rfl⟩
  | ok u =>
    cases captureLoop env slides 0 with
    | error e => exact ⟨rfl, rfl⟩
    | ok pairs => exact ⟨rfl, rfl⟩

/-- C4 witness: a run whose screenshot call fails still closes the
browser exactly once. -/
theorem browser_closed_witness :
    failShotEnv.fsFault = none ∧ failShotEnv.launch = .ok () ∧
    (screenshotSlides failShotEnv ["a.html"]).result = .error "shot failed" ∧
    (screenshotSlides failShotEnv ["a.html"]).launches = 1 ∧
    (screenshotSlides failShotEnv ["a.html"]).closes = 1 :=
  ⟨rfl, rfl, rfl,
    (browser_closed_exactly_once failShotEnv ["a.html"] rfl rfl).1,
    (browser_closed_exactly_once failShotEnv ["a.html"] rfl rfl).2⟩

/-- C10: the output directory is ensured strictly before the browser is
launched: a directory creation fault aborts the run with that error while
no browser is ever launched, hence none is closed or leaked; and since
the recursive mkdir call succeeds whether or not the directory already
exists, no outcome depends on the dirExists flag. -/
theorem mkdir_fault_aborts (env : CaptureEnv) (slides : List String) (e : String)
    (hfs : env.fsFault = some e) :
    (screenshotSlides env slides).result = .error e ∧
    (screenshotSlides env slides).launches = 0 ∧
    (screenshotSlides env slides).closes = 0 ∧
    ∀ b₁ b₂ : Bool,
      screenshotSlides ⟨env.fsFault, b₁, env.launch, env.newPage, env.goto, env.screenshot⟩
          slides =
        screenshotSlides ⟨env.fsFault, b₂, env.launch, env.newPage, env.goto, env.screenshot⟩
          slides := by
  refine ⟨?_, ?_, ?_, ?_⟩ <;>
    simp only [screenshotSlides, ensureDir, hfs] <;>
    trivial

/-- C10 witness: a concrete directory creation fault aborts before any
browser launch. -/
theorem mkdir_fault_witness :
    failMkdirEnv.fsFault = some "mkdir failed" ∧
    (screenshotSlides failMkdirEnv ["a.html"]).result = .error "mkdir failed" ∧
    (screenshotSlides failMkdirEnv ["a.html"]).launches = 0 ∧
    (screenshotSlides failMkdirEnv ["a.html"]).closes = 0 :=
  ⟨rfl,
    (mkdir_fault_aborts failMkdirEnv ["a.html"] "mkdir failed" rfl).1,
    (mkdir_fault_aborts failMkdirEnv ["a.html"] "mkdir failed" rfl).2.1,
    (mkdir_fault_aborts failMkdirEnv ["a.html"] "mkdir failed" rfl).2.2.1⟩

/-- When some image in the list fails to decode, the composite assembly
fails with the error of the least failing index, every earlier image
having decoded successfully. -/
theorem buildComposites_error_first (d : String → Except String Buffer) (imgs : List String) :
    ∀ (k i : Nat), i < imgs.length → (d (imgs.getD i "")).isOk = false →
      ∃ j e, j ≤ i ∧ d (imgs.getD j "") = .error e ∧
        (∀ m, m < j → (d (imgs.getD m "")).isOk = true) ∧
        buildComposites d imgs k = .error e := by
  induction imgs with
  | nil =>
    intro k i hi
    exact absurd hi (by simp)
  | cons img rest ih =>
    intro k i hi hfail
    cases hdec : d img with
    | error e =>
      refine ⟨0, e, Nat.zero_le i, by simpa using hdec, fun m hm => absurd hm (by omega), ?_⟩
      simp only [buildComposites, hdec]
    | ok buf =>
      cases i with
      | zero =>
        rw [List.getD_cons_zero, hdec] at hfail
        simp [Except.isOk, Except.toBool] at hfail
      | succ i' =>
        rw [List.getD_cons_succ] at hfail
        obtain ⟨j, e, hji, hje, hmin, hbuild⟩ :=
          ih (k + 1) i' (by simpa using hi) hfail
        refine ⟨j + 1, e, by omega, by simpa using hje, ?_, ?_⟩
        · intro m hm
          cases m with
          | zero => simp [hdec, Except.isOk, Except.toBool]
          | succ m' =>
            rw [List.getD_cons_succ]
            exact hmin m' (by omega)
        · simp only [buildComposites, hdec, hbuild]

/-- C5: if any of the input images fails to decode, makeGrid fails with
the first error encountered and the composite file is not written at
all. -/
theorem makeGrid_atomic_failure (env : GridEnv) (images : List String) (i : Nat)
    (hi : i < images.length)
    (hfail : (env.decode (images.getD i "")).isOk = false) :
    (makeGridRun env images).written = false ∧
    ∃ j e, j ≤ i ∧ env.decode (images.getD j "") = .error e ∧
      (∀ m, m < j → (env.decode (images.getD m "")).isOk = true) ∧
      (makeGridRun env images).result = .error e := by
  obtain ⟨j, e, hji, hje, hmin, hbuild⟩ :=
    buildComposites_error_first env.decode images 0 i hi hfail
  refine ⟨?_, j, e, hji, hje, hmin, ?_⟩ <;> simp only [makeGridRun, hbuild]

/-- C5 witness: a concrete decode fault leaves the composite unwritten. -/
theorem makeGrid_atomic_failure_witness :
    (0 : Nat) < (["a.png"] : List String).length ∧
    (failDecodeEnv.decode ((["a.png"] : List String).getD 0 "")).isOk = false ∧
    (makeGridRun failDecodeEnv ["a.png"]).written = false :=
  ⟨by decide, rfl, (makeGrid_atomic_failure failDecodeEnv ["a.png"] 0 (by decide) rfl).1⟩

/-- Amended C6: given zero slide files the pipeline does not reject; with
the directory, launch and page calls succeeding it completes with exit
code 0, writes the degenerate composite, prints nothing to stderr, and
the layout arithmetic stays non-negative: zero rows, canvas height equal
to one gap. -/
theorem pipeline_empty_input_behavior (cenv : CaptureEnv) (genv : GridEnv)
    (h0 : cenv.fsFault = none) (h1 : cenv.launch = .ok ()) (h2 : cenv.newPage = .ok ()) :
    gridRows 0 = 0 ∧ gridH 0 = GAP ∧
    (runProcess cenv genv []).exitCode = 0 ∧
    (runProcess cenv genv []).stderrLines = [] ∧
    (runProcess cenv genv []).gridWritten = true := by
  have hrows : gridRows 0 = 0 := by rw [gridRows_eq_div]
  refine ⟨hrows, by simp [gridH, hrows, GAP], ?_, ?_, ?_⟩ <;>
    simp [runProcess, screenshotSlides, ensureDir, h0, h1, h2, captureLoop,
      makeGridRun, buildComposites]

/-- C6 counterexample: with zero slide files and every external call
succeeding, the pipeline does not reject with an error before capture;
it finishes with exit code 0, an empty stderr, and writes the composite,
refuting the claimed rejection. -/
theorem pipeline_empty_input_no_reject :
    (runProcess allOkCaptureEnv allOkGridEnv []).exitCode = 0 ∧
    (runProcess allOkCaptureEnv allOkGridEnv []).stderrLines = [] ∧
    (runProcess allOkCaptureEnv allOkGridEnv []).gridWritten = true :=
  ⟨rfl, rfl, rfl⟩

/-- C6 witness: the amended statement at the all-succeeding environment. -/
theorem pipeline_empty_input_witness :
    allOkCaptureEnv.fsFault = none ∧
    gridRows 0 = 0 ∧ gridH 0 = GAP ∧
    (runProcess allOkCaptureEnv allOkGridEnv []).exitCode = 0 :=
  ⟨rfl,
    (pipeline_empty_input_behavior allOkCaptureEnv allOkGridEnv rfl rfl rfl).1,
    (pipeline_empty_input_behavior allOkCaptureEnv allOkGridEnv rfl rfl rfl).2.1,
    (pipeline_empty_input_behavior allOkCaptureEnv allOkGridEnv rfl rfl rfl).2.2.1⟩

/-- C7: the driver exits 0 exactly when the capturer succeeded and the
compositor succeeded on the capturer outputs, in which case the composite
path is the only stdout line and stderr is empty; any stage failure makes
the exit code 1, prints that error as the only stderr line, and leaves
the composite unwritten. -/
theorem pipeline_driver_exit (cenv : CaptureEnv) (genv : GridEnv) (slides : List String) :
    ((runProcess cenv genv slides).exitCode = 0 ∨
      (runProcess cenv genv slides).exitCode = 1) ∧
    ((runProcess cenv genv slides).exitCode = 0 ↔
      ∃ outs, (screenshotSlides cenv slides).result = .ok outs ∧
        ∃ cs, (makeGridRun genv outs).result = .ok cs) ∧
    ((runProcess cenv genv slides).exitCode = 0 →
      (runProcess cenv genv slides).stdoutLines = [outGrid] ∧
      (runProcess cenv genv slides).stderrLines = []) ∧
    ((runProcess cenv genv slides).exitCode ≠ 0 →
      ∃ e, (runProcess cenv genv slides).stderrLines = [e] ∧
        (runProcess cenv genv slides).gridWritten = false) := by
  unfold runProcess
  cases hcap : (screenshotSlides cenv slides).result with
  | error e => simp [hcap]
  | ok outs =>
    cases hgrid : (makeGridRun genv outs).result with
    | error e => simp [hcap, hgrid]
    | ok cs =>
      have hw : (makeGridRun genv outs).written = true := by
        unfold makeGridRun at hgrid ⊢
        cases hb : buildComposites genv.decode outs 0 with
        | error e => rw [hb] at hgrid; cases hgrid
        | ok cs2 => rfl
      simp [hcap, hgrid, hw]

/-- C7 witness: the driver facts instantiated on one concrete run. -/
theorem pipeline_driver_exit_witness :
    ((runProcess allOkCaptureEnv allOkGridEnv ["a.html"]).exitCode = 0 ∨
      (runProcess allOkCaptureEnv allOkGridEnv ["a.html"]).exitCode = 1) ∧
    ((runProcess allOkCaptureEnv allOkGridEnv ["a.html"]).exitCode = 0 →
      (runProcess allOkCaptureEnv allOkGridEnv ["a.html"]).stdoutLines = [outGrid] ∧
      (runProcess allOkCaptureEnv allOkGridEnv ["a.html"]).stderrLines = []) :=
  ⟨(pipeline_driver_exit allOkCaptureEnv allOkGridEnv ["a.html"]).1,
    (pipeline_driver_exit allOkCaptureEnv allOkGridEnv ["a.html"]).2.2.1⟩

/-- C8: the placement makeGrid computes is deterministic in the input
list alone: runs under environments with different file timestamps and a
different directory listing order give identical outcomes, and on
success the overlay of slot i of the composites list is the decoded i-th
input of the explicit input sequence at the position derived from i. -/
theorem makeGrid_deterministic (d : String → Except String Buffer)
    (t₁ t₂ : String → Nat) (l₁ l₂ : List String) (images : List String) :
    makeGridRun ⟨d, t₁, l₁⟩ images = makeGridRun ⟨d, t₂, l₂⟩ images ∧
    ∀ cs, buildComposites d images 0 = .ok cs →
      ∀ i, i < images.length →
        ∃ b, d (images.getD i "") = .ok b ∧
          cs.get? (2 * i) = some (Overlay.mk b (xPos i) (yPos i)) := by
  refine ⟨rfl, ?_⟩
  intro cs hcs i hi
  obtain ⟨-, hget⟩ := buildComposites_ok_elim d images 0 cs hcs
  obtain ⟨b, hb, h1, -⟩ := hget i hi
  exact ⟨b, hb, by simpa using h1⟩

/-- C8 witness: identical outcomes under two different timestamp and
directory-listing environments, and the first overlay of a concrete run
is the decoded first input at the first cell origin. -/
theorem makeGrid_deterministic_witness :
    makeGridRun ⟨fun _ => Except.ok "img", fun _ => 0, []⟩ ["a.png"] =
      makeGridRun ⟨fun _ => Except.ok "img", fun _ => 7, ["z"]⟩ ["a.png"] ∧
    ∃ b, (fun _ => (Except.ok "img" : Except String Buffer)) ((["a.png"] : List String).getD 0 "") = .ok b ∧
      (Overlay.mk "img" (xPos 0) (yPos 0) ::
        Overlay.mk (labelSvg 0) (xPos 0) (yPos 0 + HEIGHT) :: []).get? 0 =
        some (Overlay.mk b (xPos 0) (yPos 0)) :=
  ⟨(makeGrid_deterministic (fun _ => Except.ok "img") (fun _ => 0) (fun _ => 7) [] ["z"]
      ["a.png"]).1,
    (makeGrid_deterministic (fun _ => Except.ok "img") (fun _ => 0) (fun _ => 7) [] ["z"]
      ["a.png"]).2
      (Overlay.mk "img" (xPos 0) (yPos 0) ::
        Overlay.mk (labelSvg 0) (xPos 0) (yPos 0 + HEIGHT) :: []) rfl 0 (by decide)⟩

/-- Exact length of the decimal digit accumulator: with enough fuel, the
digit list of n prepended to l has length log 10 n + 1 + length l. -/
theorem toDigitsCore_len (f : Nat) :
    ∀ (n : Nat) (l : List Char), n < f →
      (Nat.toDigitsCore 10 f n l).length = Nat.log 10 n + 1 + l.length := by
  induction f with
  | zero =>
    intro n l h
    exact absurd h (Nat.not_lt_zero n)
  | succ f ih =>
    intro n l hn
    simp only [Nat.toDigitsCore]
    by_cases h : n / 10 = 0
    · have hlog : Nat.log 10 n = 0 :=
        Nat.log_eq_zero_iff.mpr (Or.inl (by omega))
      simp [h, hlog]
      omega
    · have hpos : 0 < Nat.log 10 n := Nat.log_pos (by norm_num) (by omega)
      have hlog : Nat.log 10 (n / 10) = Nat.log 10 n - 1 := Nat.log_div_base 10 n
      simp only [h, if_false]
      rw [ih (n / 10) _ (by omega), hlog]
      simp only [List.length_cons]
      omega

/-- Length of the decimal representation of a natural number. -/
theorem repr_length_eq (n : Nat) : (Nat.repr n).length = Nat.log 10 n + 1 := by
  have h := toDigitsCore_len (n + 1) n [] (by omega)
  simp only [Nat.repr, Nat.toDigits, String.length, List.asString]
  simpa using h

/-- The JavaScript String(n) conversion on a natural number is its
decimal representation. -/
theorem toString_nat_eq (n : Nat) : toString n = Nat.repr n := rfl

/-- Length after padding to width two: the maximum of two and the
original length. -/
theorem padStart_length (s : String) (c : Char) :
    (padStart s 2 c).length = max 2 s.length := by
  cases s with
  | mk data =>
    show (String.mk (List.replicate (2 - data.length) c) ++ String.mk data).length = _
    simp only [String.length, String.append, List.length_append, List.length_replicate,
      String.length_mk]
    omega

/-- Padding to width two returns a string of length at least two
unchanged: nothing is ever truncated. -/
theorem padStart_of_le (s : String) (c : Char) (h : 2 ≤ s.length) :
    padStart s 2 c = s := by
  unfold padStart
  rw [Nat.sub_eq_zero_of_le h]
  cases s with
  | mk data => rfl

/-- With positive fuel, a one-digit number contributes its digit
character. -/
theorem toDigitsCore_small (f n : Nat) (l : List Char) (hf : 0 < f) (hn : n < 10) :
    Nat.toDigitsCore 10 f n l = Nat.digitChar n :: l := by
  cases f with
  | zero => omega
  | succ f =>
    simp only [Nat.toDigitsCore]
    rw [if_pos (by omega : n / 10 = 0), Nat.mod_eq_of_lt hn]

/-- With fuel at least two, a two-digit number contributes its tens digit
followed by its ones digit. -/
theorem toDigitsCore_double (f n : Nat) (l : List Char) (hf : 2 ≤ f) (h10 : 10 ≤ n)
    (h100 : n < 100) :
    Nat.toDigitsCore 10 f n l =
      Nat.digitChar (n / 10) :: Nat.digitChar (n % 10) :: l := by
  cases f with
  | zero => omega
  | succ f =>
    simp only [Nat.toDigitsCore]
    rw [if_neg (by omega : ¬ n / 10 = 0)]
    exact toDigitsCore_small f (n / 10) _ (by omega) (by omega)

/-- Decimal representation of a one-digit number. -/
theorem repr_data_small (n : Nat) (hn : n < 10) :
    (Nat.repr n).data = [Nat.digitChar n] := by
  show (Nat.toDigits 10 n).asString.data = _
  rw [Nat.toDigits, toDigitsCore_small (n + 1) n [] (by omega) hn]
  rfl

/-- Decimal representation of a two-digit number. -/
theorem repr_data_double (n : Nat) (h10 : 10 ≤ n) (h100 : n < 100) :
    (Nat.repr n).data = [Nat.digitChar (n / 10), Nat.digitChar (n % 10)] := by
  show (Nat.toDigits 10 n).asString.data = _
  rw [Nat.toDigits, toDigitsCore_double (n + 1) n [] (by omega) h10 h100]
  rfl

/-- Characters of the capture numeral of an index between 1 and 99: the
tens digit, zero padded, followed by the ones digit. -/
theorem slideNumeral_data (n : Nat) (h1 : 1 ≤ n) (h99 : n ≤ 99) :
    (slideNumeral n).data = [Nat.digitChar (n / 10), Nat.digitChar (n % 10)] := by
  unfold slideNumeral padStart
  rw [toString_nat_eq]
  by_cases hn : n < 10
  · have hd := repr_data_small n hn
    have hlen : (Nat.repr n).length = 1 := by
      show (Nat.repr n).data.length = 1
      rw [hd]
      rfl
    rw [hlen]
    show (List.replicate (2 - 1) '0' ++ (Nat.repr n).data) = _
    rw [hd, (by omega : n / 10 = 0), Nat.mod_eq_of_lt hn]
    rfl
  · have hd := repr_data_double n (by omega) (by omega)
    have hlen : (Nat.repr n).length = 2 := by
      show (Nat.repr n).data.length = 2
      rw [hd]
      rfl
    rw [hlen]
    show (List.replicate (2 - 2) '0' ++ (Nat.repr n).data) = _
    rw [hd]
    rfl

/-- Digit characters of distinct decimal digits compare like the digits. -/
theorem digitChar_lt_digitChar :
    ∀ a, a < 10 → ∀ b, b < 10 → a < b → Nat.digitChar a < Nat.digitChar b := by
  decide

/-- Appending a common front list on the left preserves the strict
lexicographic order of character lists. -/
theorem lex_append_left (common s₁ s₂ : List Char) (h : List.Lex (· < ·) s₁ s₂) :
    List.Lex (· < ·) (common ++ s₁) (common ++ s₂) := by
  induction common with
  | nil => exact h
  | cons c cs ih => exact List.Lex.cons ih

/-- Characters of a capture file name: the fixed front, the numeral and
the fixed extension. -/
theorem captureName_data (n : Nat) : (captureName n).data =
    "slide-".data ++ ((slideNumeral n).data ++ ".png".data) := by
  show (("slide-" ++ slideNumeral n) ++ ".png").data = _
  rw [String.data_append, String.data_append, List.append_assoc]

/-- Capture file names of indices between 1 and 99 compare
lexicographically exactly like their indices. -/
theorem captureName_lt_captureName (m k : Nat) (h1 : 1 ≤ m) (hmk : m < k) (h99 : k ≤ 99) :
    captureName m < captureName k := by
  have hm := slideNumeral_data m h1 (by omega)
  have hk := slideNumeral_data k (by omega) h99
  rw [String.lt_iff_toList_lt]
  show List.Lex (· < ·) (captureName m).data (captureName k).data
  rw [captureName_data m, captureName_data k, hm, hk]
  apply lex_append_left
  simp only [List.cons_append, List.nil_append]
  rcases Nat.lt_or_ge (m / 10) (k / 10) with hlt | hge
  · exact List.Lex.rel (digitChar_lt_digitChar _ (by omega) _ (by omega) hlt)
  · have hde : m / 10 = k / 10 := by omega
    have hm2 : m % 10 < k % 10 := by omega
    rw [hde]
    exact List.Lex.cons
      (List.Lex.rel (digitChar_lt_digitChar _ (by omega) _ (by omega) hm2))

/-- At index 100 the three-digit numeral makes the file name compare
before the two-digit name of index 99, breaking the order. -/
theorem captureName_order_break : captureName 100 < captureName 99 := by
  rw [String.lt_iff_toList_lt]
  show List.Lex (· < ·) (captureName 100).data (captureName 99).data
  rw [captureName_data 100, captureName_data 99,
    (rfl : (slideNumeral 100).data = ['1', '0', '0']),
    (rfl : (slideNumeral 99).data = ['9', '9'])]
  apply lex_append_left
  simp only [List.cons_append, List.nil_append]
  exact List.Lex.rel (by decide)

/-- C9: the capture numeral of a 1-based index n is String(n) left padded
with zeros only to a minimum width of two: indices 1 through 99 give
exactly two digits, while any index of 100 or more keeps its three or
more digits unchanged, with no truncation; consequently the
lexicographic order of the capture file names agrees with slide order
for indices up to 99 and breaks at index 100. -/
theorem capture_numeral_padding (n : Nat) :
    (1 ≤ n → n ≤ 99 → (slideNumeral n).length = 2) ∧
    (100 ≤ n → slideNumeral n = toString n ∧ 3 ≤ (slideNumeral n).length) ∧
    (∀ m k, 1 ≤ m → m < k → k ≤ 99 → captureName m < captureName k) ∧
    captureName 100 < captureName 99 := by
  refine ⟨?_, ?_, captureName_lt_captureName, captureName_order_break⟩
  · intro h1 h2
    have hlen : (toString n).length = Nat.log 10 n + 1 := by
      rw [toString_nat_eq]
      exact repr_length_eq n
    have hlog : Nat.log 10 n < 2 := by
      rw [← Nat.lt_pow_iff_log_lt (by norm_num) (by omega)]
      norm_num
      omega
    unfold slideNumeral
    rw [padStart_length, hlen, Nat.max_eq_left (by omega)]
  · intro h100
    have hlen : (toString n).length = Nat.log 10 n + 1 := by
      rw [toString_nat_eq]
      exact repr_length_eq n
    have hlog : 2 ≤ Nat.log 10 n := by
      rw [← Nat.pow_le_iff_le_log (by norm_num) (by omega)]
      norm_num
      omega
    have h2 : 2 ≤ (toString n).length := by omega
    refine ⟨padStart_of_le _ _ h2, ?_⟩
    unfold slideNumeral
    rw [padStart_of_le _ _ h2, hlen]
    omega

/-- C9 witness: padding widths at concrete indices on each side of the
two-digit range, and the concrete lexicographic break at index 100. -/
theorem capture_numeral_padding_witness :
    1 ≤ (7 : Nat) ∧ (7 : Nat) ≤ 99 ∧ (slideNumeral 7).length = 2 ∧
    100 ≤ (123 : Nat) ∧ slideNumeral 123 = toString 123 ∧
    captureName 100 < captureName 99 :=
  ⟨by decide, by decide, (capture_numeral_padding 7).1 (by decide) (by decide),
    by decide, ((capture_numeral_padding 123).2.1 (by decide)).1,
    (capture_numeral_padding 100).2.2.2⟩

end Preview
